import Mathlib

/-!
Verification of the user-management backend (`backend/users/`): a shallow
embedding of the account store, the serializer validation rules, the
permission classes and the request handlers, together with theorems
settling the specified behaviours.

Timestamps are modelled as `Nat`; the persisted store is a `List User`.
String fields (`role`, `status`, `email`, …) are kept as strings, exactly
as the Django model stores them.
-/

namespace UserManagement

/-- Account record, one row of the `users` table (`models.py`, class `User`).
`password` holds the password hash written by `set_password`; `last_login`
is nullable (`none` until the first successful login). -/
structure User where
  id : Nat
  email : String
  full_name : String
  password : String
  role : String
  status : String
  created_at : Nat
  updated_at : Nat
  last_login : Option Nat
  is_staff : Bool
  is_active : Bool
  is_superuser : Bool
deriving Repr, DecidableEq

/-- Embeds `User.activate` (`models.py` lines 99-102): sets `status` to
`"active"` and saves with `update_fields=['status', 'updated_at']`; the
`auto_now` field `updated_at` is persisted because it is listed. -/
def User.activate (u : User) (now : Nat) : User :=
  { u with status := "active", updated_at := now }

/-- Embeds `User.deactivate` (`models.py` lines 104-107): sets `status` to
`"inactive"` and saves with `update_fields=['status', 'updated_at']`. -/
def User.deactivate (u : User) (now : Nat) : User :=
  { u with status := "inactive", updated_at := now }

/-- Embeds `User.update_last_login` (`models.py` lines 109-112): sets
`last_login` to the current time and saves with
`update_fields=['last_login']`. Django persists only the listed fields on
such a save, and an `auto_now` field is written only when it is listed in
`update_fields`; `updated_at` is not listed here, so it is NOT persisted
(contrast `activate`/`deactivate`, which list it explicitly). -/
def User.update_last_login (u : User) (now : Nat) : User :=
  { u with last_login := some now }

/-- Row lookup by primary key, as `get_object_or_404(User, id=user_id)`
resolves the target row (`none` models the 404 path). -/
def findById (store : List User) (uid : Nat) : Option User :=
  store.find? (fun u => u.id = uid)

/-- Single-row save by primary key: the row with the given id is replaced,
all other rows are untouched. -/
def replaceById (store : List User) (uid : Nat) (u' : User) : List User :=
  store.map (fun v => if v.id = uid then u' else v)

/-- The client-visible user projection produced by `UserSerializer`
(`serializers.py` lines 12-21): exactly the fields listed in `Meta.fields`.
The password hash has no corresponding field here. -/
structure UserProjection where
  id : Nat
  email : String
  full_name : String
  role : String
  status : String
  created_at : Nat
  updated_at : Nat
  last_login : Option Nat
deriving Repr, DecidableEq

/-- Embeds `UserSerializer` applied to a user instance: each declared field
is copied from the model instance. -/
def UserSerializer (u : User) : UserProjection :=
  { id := u.id
    email := u.email
    full_name := u.full_name
    role := u.role
    status := u.status
    created_at := u.created_at
    updated_at := u.updated_at
    last_login := u.last_login }

/-- Outcome of an admin lifecycle request (`views.py`): the 404 branch of
`get_object_or_404`, the 400 branches with their messages, or the 200
success envelope carrying the serialized user. -/
inductive AdminActionResult where
  | notFound
  | clientError (message : String)
  | success (user : UserProjection)
deriving Repr, DecidableEq

/-- Embeds `AdminActivateUserView.post` (`views.py` lines 322-339): resolve
the target (404 when absent); if already active answer 400
"User is already active." without mutating; otherwise `user.activate()` and
answer 200 with the serialized user. Returns the response together with the
store after the request. -/
def AdminActivateUserView (store : List User) (targetId : Nat) (now : Nat) :
    AdminActionResult × List User :=
  match findById store targetId with
  | none => (.notFound, store)
  | some u =>
    if u.status = "active" then
      (.clientError "User is already active.", store)
    else
      let u' := u.activate now
      (.success (UserSerializer u'), replaceById store targetId u')

/-- Embeds `AdminDeactivateUserView.post` (`views.py` lines 350-366):
resolve the target (404 when absent); refuse with 400
"You cannot deactivate your own account." when the target row is the acting
admin's own row (this check comes FIRST, before the status check); refuse
with 400 "User is already inactive." when already inactive; otherwise
`user.deactivate()` and answer 200. -/
def AdminDeactivateUserView (store : List User) (actingId targetId : Nat) (now : Nat) :
    AdminActionResult × List User :=
  match findById store targetId with
  | none => (.notFound, store)
  | some u =>
    if u.id = actingId then
      (.clientError "You cannot deactivate your own account.", store)
    else if u.status = "inactive" then
      (.clientError "User is already inactive.", store)
    else
      let u' := u.deactivate now
      (.success (UserSerializer u'), replaceById store targetId u')

/-- ## Claim C3

For every deactivate request in which the target user id equals the acting
admin's own id, the request is rejected with a client (400-class) error
regardless of the target's current status, and the target account's status
and updated_at fields are unchanged (indeed the whole store is unchanged). -/
theorem deactivate_self_rejected_store_unchanged
    (store : List User) (actingId targetId now : Nat) (u : User)
    (hfind : findById store targetId = some u)
    (hself : targetId = actingId) :
    AdminDeactivateUserView store actingId targetId now =
      (.clientError "You cannot deactivate your own account.", store) := by
  have hid : u.id = targetId := by
    have := List.find?_some hfind
    simpa using this
  unfold AdminDeactivateUserView
  rw [hfind]
  simp [hid, hself]

/-- Witness for C3: a concrete store in which an admin targets itself; the
request is refused and the store is returned unchanged. -/
theorem deactivate_self_rejected_store_unchanged_witness :
    AdminDeactivateUserView
      [{ id := 1, email := "admin@example.com", full_name := "Admin User",
         password := "h1", role := "admin", status := "active",
         created_at := 0, updated_at := 0, last_login := none,
         is_staff := true, is_active := true, is_superuser := true }] 1 1 7 =
      (.clientError "You cannot deactivate your own account.",
       [{ id := 1, email := "admin@example.com", full_name := "Admin User",
          password := "h1", role := "admin", status := "active",
          created_at := 0, updated_at := 0, last_login := none,
          is_staff := true, is_active := true, is_superuser := true }]) :=
  deactivate_self_rejected_store_unchanged _ 1 1 7 _ rfl rfl

/-- ## Claim C6

`activate` invoked on an account whose status is already `"active"`, and
`deactivate` invoked by an admin on a different account whose status is
already `"inactive"`, both return a client (400-class) error and leave the
store (hence every field of the target account) unchanged. -/
theorem already_in_state_transitions_rejected :
    (∀ (store : List User) (targetId now : Nat) (u : User),
      findById store targetId = some u → u.status = "active" →
      AdminActivateUserView store targetId now =
        (.clientError "User is already active.", store)) ∧
    (∀ (store : List User) (actingId targetId now : Nat) (u : User),
      findById store targetId = some u → targetId ≠ actingId →
      u.status = "inactive" →
      AdminDeactivateUserView store actingId targetId now =
        (.clientError "User is already inactive.", store)) := by
  constructor
  · intro store targetId now u hfind hactive
    unfold AdminActivateUserView
    rw [hfind]
    simp [hactive]
  · intro store actingId targetId now u hfind hne hinactive
    have hid : u.id = targetId := by
      have := List.find?_some hfind
      simpa using this
    unfold AdminDeactivateUserView
    rw [hfind]
    simp [hid, hne, hinactive]

/-- Witness for C6: concrete already-active and already-inactive targets;
both requests are refused and both stores come back unchanged. -/
theorem already_in_state_transitions_rejected_witness :
    (AdminActivateUserView
      [{ id := 2, email := "u@example.com", full_name := "U V",
         password := "h2", role := "user", status := "active",
         created_at := 0, updated_at := 0, last_login := none,
         is_staff := false, is_active := true, is_superuser := false }] 2 9 =
      (.clientError "User is already active.",
       [{ id := 2, email := "u@example.com", full_name := "U V",
          password := "h2", role := "user", status := "active",
          created_at := 0, updated_at := 0, last_login := none,
          is_staff := false, is_active := true, is_superuser := false }])) ∧
    (AdminDeactivateUserView
      [{ id := 2, email := "u@example.com", full_name := "U V",
         password := "h2", role := "user", status := "inactive",
         created_at := 0, updated_at := 0, last_login := none,
         is_staff := false, is_active := true, is_superuser := false }] 1 2 9 =
      (.clientError "User is already inactive.",
       [{ id := 2, email := "u@example.com", full_name := "U V",
          password := "h2", role := "user", status := "inactive",
          created_at := 0, updated_at := 0, last_login := none,
          is_staff := false, is_active := true, is_superuser := false }])) :=
  ⟨already_in_state_transitions_rejected.1 _ 2 9 _ rfl rfl,
   already_in_state_transitions_rejected.2 _ 1 2 9 _ rfl (by decide) rfl⟩

/-! ## Access policy: permission classes and the request gate -/

/-- The permission classes that appear in a view's `permission_classes`
list (`permissions.py` and DRF's `IsAuthenticated`). -/
inductive Permission where
  | isAuthenticated
  | isAdmin
  | isActiveUser
deriving Repr, DecidableEq

/-- State of the authentication layer for a request: no credentials were
supplied; credentials were supplied but the token is malformed, expired or
revoked (the token layer raises `AuthenticationFailed`); or the token
resolved to the account `u`. -/
inductive AuthState where
  | missing
  | invalid
  | authenticated (u : User)
deriving Repr, DecidableEq

/-- Embeds `has_permission` of each class for an authenticated request:
`request.user` is a `User` instance, truthy, with `is_authenticated = True`,
so `IsAuthenticated` passes, `IsAdmin` (`permissions.py` lines 13-18)
reduces to `role == 'admin'` and `IsActiveUser` (lines 27-32) to
`status == 'active'`. -/
def Permission.check (p : Permission) (u : User) : Bool :=
  match p with
  | .isAuthenticated => true
  | .isAdmin => u.role = "admin"
  | .isActiveUser => u.status = "active"

/-- Embeds `has_permission` of each class when no credentials were supplied:
`request.user` is an `AnonymousUser`, whose `is_authenticated` is `False`,
so every one of these classes returns `False`. -/
def Permission.checkAnon (p : Permission) : Bool :=
  match p with
  | .isAuthenticated => false
  | .isAdmin => false
  | .isActiveUser => false

/-- The HTTP status produced when the authentication/permission layer
rejects a request, or the resolved principal when it passes (`none` when an
unauthenticated request passes an empty permission list). Rejections follow
`custom_exception_handler` (`exceptions.py`): `NotAuthenticated` and
`AuthenticationFailed` are answered 401, `PermissionDenied` 403. A failing
permission check on a request that carries no valid authentication raises
`NotAuthenticated` (401); on an authenticated request it raises
`PermissionDenied` (403). -/
def runGate (perms : List Permission) (auth : AuthState) : Except Nat (Option User) :=
  match auth with
  | .missing =>
    if perms.all (fun p => p.checkAnon) then .ok none else .error 401
  | .invalid => .error 401
  | .authenticated u =>
    if perms.all (fun p => p.check u) then .ok (some u) else .error 403

/-- Permission list of `AdminUserListView` (`views.py` line 256). -/
def AdminUserListView.permission_classes : List Permission :=
  [.isAuthenticated, .isAdmin]

/-- Permission list of `AdminUserDetailView` (`views.py` line 299). -/
def AdminUserDetailView.permission_classes : List Permission :=
  [.isAuthenticated, .isAdmin]

/-- Permission list of `AdminActivateUserView` (`views.py` line 320). -/
def AdminActivateUserView.permission_classes : List Permission :=
  [.isAuthenticated, .isAdmin]

/-- Permission list of `AdminDeactivateUserView` (`views.py` line 348). -/
def AdminDeactivateUserView.permission_classes : List Permission :=
  [.isAuthenticated, .isAdmin]

/-- Counterexample for C4 as stated: a request with missing credentials to
an `/admin/*` endpoint is answered 401, not a 403-class error. -/
theorem admin_endpoint_missing_credentials_401_not_403 :
    runGate AdminUserListView.permission_classes .missing = .error 401 ∧
    runGate AdminUserListView.permission_classes .missing ≠ .error 403 := by
  constructor
  · rfl
  · intro h
    simp [runGate, AdminUserListView.permission_classes, Permission.checkAnon] at h

/-- ## Claim C4 (amended)

Every authenticated request to any `/admin/*` endpoint by a principal whose
role is not `"admin"` receives a 403-class error; requests with missing,
invalid or expired credentials instead receive a 401-class error. -/
theorem admin_endpoints_gate_statuses :
    (∀ (perms : List Permission),
      perms ∈ [AdminUserListView.permission_classes,
               AdminUserDetailView.permission_classes,
               AdminActivateUserView.permission_classes,
               AdminDeactivateUserView.permission_classes] →
      (∀ u : User, u.role ≠ "admin" →
        runGate perms (.authenticated u) = .error 403) ∧
      runGate perms .missing = .error 401 ∧
      runGate perms .invalid = .error 401) := by
  intro perms hperms
  fin_cases hperms <;>
    refine ⟨fun u hu => ?_, rfl, rfl⟩ <;>
    simp [runGate, AdminUserListView.permission_classes,
      AdminUserDetailView.permission_classes,
      AdminActivateUserView.permission_classes,
      AdminDeactivateUserView.permission_classes,
      Permission.check, hu]

/-- Witness for C4 (amended): a concrete authenticated non-admin principal
is answered 403 on the user-list endpoint, and credential-less requests get
401. -/
theorem admin_endpoints_gate_statuses_witness :
    runGate AdminUserListView.permission_classes
      (.authenticated
        { id := 2, email := "u@example.com", full_name := "U V",
          password := "h2", role := "user", status := "active",
          created_at := 0, updated_at := 0, last_login := none,
          is_staff := false, is_active := true, is_superuser := false }) =
      .error 403 ∧
    runGate AdminUserListView.permission_classes .missing = .error 401 ∧
    runGate AdminUserListView.permission_classes .invalid = .error 401 :=
  ⟨(admin_endpoints_gate_statuses AdminUserListView.permission_classes
      (by simp)).1 _ (by decide),
   (admin_endpoints_gate_statuses AdminUserListView.permission_classes
      (by simp)).2.1,
   (admin_endpoints_gate_statuses AdminUserListView.permission_classes
      (by simp)).2.2⟩

/-- ## Claim C10

An authenticated account whose role is `"admin"` but whose status is
`"inactive"` passes the permission checks of every `/admin/*` endpoint:
those views gate on `[IsAuthenticated, IsAdmin]` only, and `IsAdmin` reads
the role, never the status. -/
theorem inactive_admin_passes_admin_permission_checks
    (u : User) (hrole : u.role = "admin") (_hstatus : u.status = "inactive") :
    runGate AdminUserListView.permission_classes (.authenticated u) = .ok (some u) ∧
    runGate AdminUserDetailView.permission_classes (.authenticated u) = .ok (some u) ∧
    runGate AdminActivateUserView.permission_classes (.authenticated u) = .ok (some u) ∧
    runGate AdminDeactivateUserView.permission_classes (.authenticated u) = .ok (some u) := by
  refine ⟨?_, ?_, ?_, ?_⟩ <;>
    simp [runGate, AdminUserListView.permission_classes,
      AdminUserDetailView.permission_classes,
      AdminActivateUserView.permission_classes,
      AdminDeactivateUserView.permission_classes,
      Permission.check, hrole]

/-- Witness for C10: a concrete inactive admin passes the gate of all four
admin endpoints. -/
theorem inactive_admin_passes_admin_permission_checks_witness :
    runGate AdminUserListView.permission_classes
      (.authenticated
        { id := 1, email := "admin@example.com", full_name := "Admin User",
          password := "h1", role := "admin", status := "inactive",
          created_at := 0, updated_at := 0, last_login := none,
          is_staff := true, is_active := true, is_superuser := true }) =
      .ok (some
        { id := 1, email := "admin@example.com", full_name := "Admin User",
          password := "h1", role := "admin", status := "inactive",
          created_at := 0, updated_at := 0, last_login := none,
          is_staff := true, is_active := true, is_superuser := true }) :=
  (inactive_admin_passes_admin_permission_checks _ rfl rfl).1

/-! ## Credential validator and signup -/

/-- Embeds Python's `str.lower()` as applied to email addresses (ASCII):
each uppercase letter is replaced by its lowercase counterpart. -/
def lowerChar (c : Char) : Char :=
  if 'A' ≤ c && c ≤ 'Z' then Char.ofNat (c.toNat + 32) else c

/-- Embeds Python's `value.lower()` on a string, character by character. -/
def strLower (s : String) : String :=
  ⟨s.data.map lowerChar⟩

/-- Embeds Python's `value.strip()`: drop whitespace from both ends. -/
def strStrip (s : String) : String :=
  ⟨((s.data.dropWhile Char.isWhitespace).reverse.dropWhile Char.isWhitespace).reverse⟩

/-- Character class `[a-zA-Z0-9._%+-]` of the email regex's local part. -/
def isLocalChar (c : Char) : Bool :=
  c.isAlpha || c.isDigit || c = '.' || c = '_' || c = '%' || c = '+' || c = '-'

/-- Character class `[a-zA-Z0-9.-]` of the email regex's domain part. -/
def isDomainChar (c : Char) : Bool :=
  c.isAlpha || c.isDigit || c = '.' || c = '-'

/-- Embeds the anchored regex `^[a-zA-Z0-9._%+-]+@[a-zA-Z0-9.-]+\.[a-zA-Z]\x7b2,\x7d$`
of `serializers.py`. Neither character class contains `@`, so a match has
exactly one `@`; after it, the trailing `[a-zA-Z]\x7b2,\x7d$` admits no dot, so
the `\.` of the pattern is necessarily the LAST dot of the domain part, the
text after it is at least two letters, and the text before it is a
non-empty run of domain characters. -/
def emailRegexOk (e : String) : Bool :=
  match e.splitOn "@" with
  | [l, rest] =>
    (!l.isEmpty) && l.toList.all isLocalChar &&
    (match (rest.splitOn ".").reverse with
     | tld :: ds =>
       (!ds.isEmpty) &&
       (let d := String.intercalate "." ds.reverse
        decide (tld.length ≥ 2) && tld.toList.all Char.isAlpha &&
        (!d.isEmpty) && d.toList.all isDomainChar)
     | [] => false)
  | _ => false

/-- Embeds `UserSignupSerializer.validate_email` (`serializers.py` lines
43-52): reject when the regex fails; reject when a stored row already owns
the lower-cased address (`User.objects.filter(email=value.lower()).exists()`,
an exact match against the store); otherwise return the lower-cased value. -/
def UserSignupSerializer.validate_email (store : List User) (value : String) :
    Except String String :=
  if !emailRegexOk value then
    .error "Please enter a valid email address."
  else if store.any (fun u => u.email = strLower value) then
    .error "A user with this email already exists."
  else
    .ok (strLower value)

/-- Embeds `UserSignupSerializer.validate_full_name` (`serializers.py`
lines 54-58): `if not value or len(value.strip()) < 2` — an empty string
trims to length 0, so the test is equivalent to `value.trim.length < 2`;
on success the trimmed name is returned. -/
def UserSignupSerializer.validate_full_name (value : String) : Except String String :=
  if (strStrip value).length < 2 then
    .error "Full name must be at least 2 characters long."
  else
    .ok (strStrip value)

/-- Symbol class `[!@#$%^&*(),.?":\x7b\x7d|<>]` of the password strength check:
the fixed punctuation set. -/
def isSpecialChar (c : Char) : Bool :=
  c = '!' || c = '@' || c = '#' || c = '$' || c = '%' || c = '^' || c = '&' ||
  c = '*' || c = '(' || c = ')' || c = ',' || c = '.' || c = '?' || c = '\"' ||
  c = ':' || c = '\x7b' || c = '\x7d' || c = '|' || c = '<' || c = '>'

/-- Embeds `UserSignupSerializer.validate_password` (`serializers.py` lines
60-88): the five strength rules in source order, then Django's pluggable
`validate_password` (settings-configured validators, external to this
repository), modelled as a parameter returning `none` to accept or a
message to reject. The serializer field's `min_length=8` duplicates the
first rule at the same boundary. -/
def UserSignupSerializer.validate_password (policy : String → Option String)
    (value : String) : Except String String :=
  if value.length < 8 then
    .error "Password must be at least 8 characters long."
  else if !(value.toList.any fun c => 'A' ≤ c && c ≤ 'Z') then
    .error "Password must contain at least one uppercase letter."
  else if !(value.toList.any fun c => 'a' ≤ c && c ≤ 'z') then
    .error "Password must contain at least one lowercase letter."
  else if !(value.toList.any fun c => '0' ≤ c && c ≤ '9') then
    .error "Password must contain at least one digit."
  else if !(value.toList.any isSpecialChar) then
    .error "Password must contain at least one special character."
  else
    match policy value with
    | some msg => .error msg
    | none => .ok value

/-- Embeds `ChangePasswordSerializer.validate_new_password` (`serializers.py`
lines 204-232), whose body duplicates `UserSignupSerializer.validate_password`
(lines 60-88) check for check, message for message. -/
def ChangePasswordSerializer.validate_new_password (policy : String → Option String)
    (value : String) : Except String String :=
  UserSignupSerializer.validate_password policy value

/-- Token pair minted by `get_tokens_for_user`; the token contents are
produced by the JWT library, outside this repository. -/
structure Tokens where
  refresh : String
  access : String
deriving Repr, DecidableEq

/-- Raw signup request body (`UserSignupSerializer.Meta.fields`). -/
structure SignupPayload where
  email : String
  full_name : String
  password : String
  confirm_password : String
deriving Repr, DecidableEq

/-- Response of the signup endpoint: the 201 envelope with the serialized
user and the token pair, or the 400 envelope with the field-keyed error
map. -/
inductive SignupResponse where
  | created (user : UserProjection) (tokens : Tokens)
  | validationError (errors : List (String × String))
deriving Repr, DecidableEq

/-- Embeds `UserManager.create_user` as invoked from
`UserSignupSerializer.create` (`models.py` lines 12-24): the email reaching
it is already fully lower-cased by `validate_email`, so `normalize_email`
is the identity here; `role` defaults to `"user"`, `status` to `"active"`;
`set_password` stores the hash of the raw password (hash function external,
a parameter); `created_at`/`updated_at` are set at creation, `last_login`
starts null. -/
def UserManager.create_user (hashFn : String → String) (freshId now : Nat)
    (email password full_name : String) : User :=
  { id := freshId, email := email, full_name := full_name,
    password := hashFn password, role := "user", status := "active",
    created_at := now, updated_at := now, last_login := none,
    is_staff := false, is_active := true, is_superuser := false }

/-- Embeds `SignupView.post` (`views.py` lines 43-63) over
`UserSignupSerializer`: DRF first runs the three field validators and, on
any failure, answers 400 with the field-keyed error map; when all fields
validate, the cross-field `validate` (lines 90-96) rejects a
password/confirmation mismatch under the key `confirm_password`; otherwise
`create` persists the new row and the view answers 201 with the serialized
user and a token pair. Returns the response and the store afterwards. -/
def SignupView (policy : String → Option String) (hashFn : String → String)
    (tokenFn : User → Tokens) (store : List User) (p : SignupPayload)
    (freshId now : Nat) : SignupResponse × List User :=
  let emailR := UserSignupSerializer.validate_email store p.email
  let nameR := UserSignupSerializer.validate_full_name p.full_name
  let pwR := UserSignupSerializer.validate_password policy p.password
  match emailR, nameR, pwR with
  | .ok e, .ok n, .ok pw =>
    if p.password = p.confirm_password then
      let u := UserManager.create_user hashFn freshId now e pw n
      (.created (UserSerializer u) (tokenFn u), store ++ [u])
    else
      (.validationError [("confirm_password", "Passwords do not match.")], store)
  | _, _, _ =>
    (.validationError
      ((match emailR with | .error m => [("email", m)] | .ok _ => []) ++
       (match nameR with | .error m => [("full_name", m)] | .ok _ => []) ++
       (match pwR with | .error m => [("password", m)] | .ok _ => [])), store)

/-- ## Claim C2

For every signup request whose email equals, up to letter case, the email
of an existing account in a store whose emails are stored lower-cased,
validation fails with an error keyed to the `email` field and the store is
unchanged: no new account row is created. -/
theorem signup_duplicate_email_rejected
    (policy : String → Option String) (hashFn : String → String)
    (tokenFn : User → Tokens) (store : List User) (p : SignupPayload)
    (freshId now : Nat) (u : User)
    (hmem : u ∈ store)
    (hlower : ∀ v ∈ store, strLower v.email = v.email)
    (hdup : strLower u.email = strLower p.email) :
    ∃ errs, SignupView policy hashFn tokenFn store p freshId now =
        (.validationError errs, store) ∧ ∃ m, ("email", m) ∈ errs := by
  have heq : u.email = strLower p.email := by
    rw [← hlower u hmem, hdup]
  have hany : store.any (fun v => v.email = strLower p.email) = true := by
    rw [List.any_eq_true]
    exact ⟨u, hmem, by simp [heq]⟩
  obtain ⟨msg, hemail⟩ :
      ∃ msg, UserSignupSerializer.validate_email store p.email = .error msg := by
    cases hre : emailRegexOk p.email
    · refine ⟨"Please enter a valid email address.", ?_⟩
      unfold UserSignupSerializer.validate_email
      simp [hre]
    · refine ⟨"A user with this email already exists.", ?_⟩
      unfold UserSignupSerializer.validate_email
      simp [hre, hany]
  rcases hn : UserSignupSerializer.validate_full_name p.full_name with nm | nv <;>
    rcases hpw : UserSignupSerializer.validate_password policy p.password with pm | pv <;>
    (simp only [SignupView]; rw [hemail, hn, hpw]; exact ⟨_, rfl, msg, by simp⟩)

/-- Witness for C2: a concrete signup whose email differs from a stored
account only in case is refused with an `email`-keyed error and the store
comes back unchanged. -/
theorem signup_duplicate_email_rejected_witness :
    ∃ errs,
      SignupView (fun _ => none) (fun s => s) (fun _ => ⟨"r", "a"⟩)
        [{ id := 1, email := "a@b.com", full_name := "A B",
           password := "h1", role := "user", status := "active",
           created_at := 0, updated_at := 0, last_login := none,
           is_staff := false, is_active := true, is_superuser := false }]
        { email := "A@B.com", full_name := "A B",
          password := "Abcdef1!", confirm_password := "Abcdef1!" } 2 5 =
        (.validationError errs,
         [{ id := 1, email := "a@b.com", full_name := "A B",
            password := "h1", role := "user", status := "active",
            created_at := 0, updated_at := 0, last_login := none,
            is_staff := false, is_active := true, is_superuser := false }]) ∧
      ∃ m, ("email", m) ∈ errs :=
  signup_duplicate_email_rejected (fun _ => none) (fun s => s) (fun _ => ⟨"r", "a"⟩)
    _ _ 2 5 _ (List.mem_singleton.mpr rfl)
    (by intro v hv; rw [List.mem_singleton] at hv; subst hv; rfl)
    (by rfl)

/-- The five strength rules exactly as the spec words them: length at least
8 and at least one uppercase letter, one lowercase letter, one digit and
one symbol from the fixed punctuation set. Written from the spec's text,
for comparison with the code's `validate_password`. -/
def spec_fiveStrengthRules (p : String) : Bool :=
  decide (p.length ≥ 8) &&
  (p.toList.any fun c => 'A' ≤ c && c ≤ 'Z') &&
  (p.toList.any fun c => 'a' ≤ c && c ≤ 'z') &&
  (p.toList.any fun c => '0' ≤ c && c ≤ '9') &&
  (p.toList.any isSpecialChar)

/-- ## Claim C7

Assuming the pluggable generic-strength policy accepts the password, the
signup strength check and the change-password strength check each pass if
and only if the five rules hold (length ≥ 8, an uppercase letter, a
lowercase letter, a digit, a symbol from the fixed punctuation set); a
password failing any rule is rejected with a validation error. -/
theorem password_strength_iff_five_rules (policy : String → Option String)
    (p : String) (hpolicy : policy p = none) :
    (UserSignupSerializer.validate_password policy p = .ok p ↔
      spec_fiveStrengthRules p = true) ∧
    (ChangePasswordSerializer.validate_new_password policy p = .ok p ↔
      spec_fiveStrengthRules p = true) := by
  have key : UserSignupSerializer.validate_password policy p = .ok p ↔
      spec_fiveStrengthRules p = true := by
    unfold UserSignupSerializer.validate_password spec_fiveStrengthRules
    rw [hpolicy]
    split_ifs with h1 h2 h3 h4 h5 <;>
      simp_all [Nat.not_lt, Nat.lt_iff_add_one_le]
  exact ⟨key, by rw [ChangePasswordSerializer.validate_new_password]; exact key⟩

/-- Witness for C7: with an always-accepting policy, the concrete password
`Abcdef1!` passes both checks and satisfies the five rules. -/
theorem password_strength_iff_five_rules_witness :
    (UserSignupSerializer.validate_password (fun _ => none) "Abcdef1!" =
        .ok "Abcdef1!" ↔ spec_fiveStrengthRules "Abcdef1!" = true) ∧
    (ChangePasswordSerializer.validate_new_password (fun _ => none) "Abcdef1!" =
        .ok "Abcdef1!" ↔ spec_fiveStrengthRules "Abcdef1!" = true) :=
  password_strength_iff_five_rules (fun _ => none) "Abcdef1!" rfl

/-! ## Login -/

/-- Embeds `authenticate(email=..., password=...)` as configured for this
project: the backend fetches the row whose `USERNAME_FIELD` (`email`)
equals the supplied identifier exactly, verifies the raw password against
the stored hash, and refuses rows whose `is_active` flag is cleared; on any
failure it yields no user. The hash verifier is the external hashing
collaborator, passed as `hashFn`. -/
def authenticate (hashFn : String → String) (store : List User)
    (email password : String) : Option User :=
  match store.find? (fun u => u.email = email) with
  | none => none
  | some u =>
    if (u.password == hashFn password) && u.is_active then some u else none

/-- Response of the login endpoint: the 200 envelope with the serialized
user and token pair, or the 400 envelope with the keyed error map. -/
inductive LoginResponse where
  | success (user : UserProjection) (tokens : Tokens)
  | validationError (errors : List (String × String))
deriving Repr, DecidableEq

/-- Embeds `LoginView.post` (`views.py` lines 74-95) over
`UserLoginSerializer` (`serializers.py` lines 109-147): the email is
lower-cased by `validate_email`; `validate` calls `authenticate` and
rejects with `detail`-keyed messages when no user results or when the
resolved user's status is `"inactive"`; on success the view calls
`user.update_last_login()` and answers 200 with the serialized user and a
token pair. Returns the response and the store afterwards. -/
def LoginView (hashFn : String → String) (tokenFn : User → Tokens)
    (store : List User) (email password : String) (now : Nat) :
    LoginResponse × List User :=
  match authenticate hashFn store (strLower email) password with
  | none =>
    (.validationError [("detail", "Invalid email or password.")], store)
  | some u =>
    if u.status = "inactive" then
      (.validationError
        [("detail", "Your account has been deactivated. Please contact an administrator.")],
       store)
    else
      let u' := u.update_last_login now
      (.success (UserSerializer u') (tokenFn u'), replaceById store u.id u')

/-- Embeds the mutation performed by `ChangePasswordView.post` on success
(`views.py` lines 232-235): `set_password(new_password)` then `save()` with
no `update_fields` — a full save, which writes the `auto_now` field
`updated_at`. -/
def ChangePasswordView.applyChange (hashFn : String → String) (u : User)
    (newPassword : String) (now : Nat) : User :=
  { u with password := hashFn newPassword, updated_at := now }

/-- Embeds the mutation performed by `UserProfileView.put` on success
(`views.py` lines 193-209): the serializer's `save()` writes the validated
`email` and `full_name` through a full save, which writes the `auto_now`
field `updated_at`. -/
def UserProfileView.applyUpdate (u : User) (email full_name : String)
    (now : Nat) : User :=
  { u with email := email, full_name := full_name, updated_at := now }

/-- ## Claim C8

For every login request that resolves to an account whose status is
`"inactive"`, login fails with a 400-class validation error, no tokens are
issued, and the store (hence `last_login`) is unchanged — regardless of
whether the supplied password is correct. -/
theorem login_inactive_account_always_rejected
    (hashFn : String → String) (tokenFn : User → Tokens) (store : List User)
    (email password : String) (now : Nat) (u : User)
    (hfind : store.find? (fun v => v.email = strLower email) = some u)
    (hinactive : u.status = "inactive") :
    ∃ errs, LoginView hashFn tokenFn store email password now =
      (.validationError errs, store) := by
  unfold LoginView authenticate
  rw [hfind]
  cases hcp : (u.password == hashFn password) && u.is_active
  · refine ⟨[("detail", "Invalid email or password.")], ?_⟩
    simp [hcp]
  · refine ⟨[("detail",
      "Your account has been deactivated. Please contact an administrator.")], ?_⟩
    simp [hcp, hinactive]

/-- Witness for C8: a deactivated account with the CORRECT password (the
identity "hash" makes `"pw"` verify) is still refused and the store is
unchanged. -/
theorem login_inactive_account_always_rejected_witness :
    ∃ errs,
      LoginView (fun s => s) (fun _ => ⟨"r", "a"⟩)
        [{ id := 3, email := "c@d.com", full_name := "C D",
           password := "pw", role := "user", status := "inactive",
           created_at := 0, updated_at := 0, last_login := none,
           is_staff := false, is_active := true, is_superuser := false }]
        "C@D.com" "pw" 5 =
      (.validationError errs,
       [{ id := 3, email := "c@d.com", full_name := "C D",
          password := "pw", role := "user", status := "inactive",
          created_at := 0, updated_at := 0, last_login := none,
          is_staff := false, is_active := true, is_superuser := false }]) :=
  login_inactive_account_always_rejected (fun s => s) (fun _ => ⟨"r", "a"⟩)
    _ "C@D.com" "pw" 5 _ rfl rfl

/-- Counterexample for C5 as stated: a successful login at time 5 against
an account whose persisted `updated_at` is 0 stores `last_login = 5` but
leaves `updated_at = 0`: `update_last_login` saves with
`update_fields=['last_login']`, so the `auto_now` field is not persisted,
and the claim that every successful login also updates `updated_at` fails
on this input. -/
theorem login_success_leaves_updated_at_unchanged :
    (LoginView (fun s => s) (fun _ => ⟨"r", "a"⟩)
        [{ id := 3, email := "c@d.com", full_name := "C D",
           password := "pw", role := "user", status := "active",
           created_at := 0, updated_at := 0, last_login := none,
           is_staff := false, is_active := true, is_superuser := false }]
        "c@d.com" "pw" 5).2 =
      [{ id := 3, email := "c@d.com", full_name := "C D",
         password := "pw", role := "user", status := "active",
         created_at := 0, updated_at := 0, last_login := some 5,
         is_staff := false, is_active := true, is_superuser := false }] ∧
    (0 : Nat) ≠ 5 :=
  ⟨rfl, by decide⟩

/-- ## Claim C5 (amended)

`updated_at` is set at creation (equal to `created_at`) and is written by
the mutating operations that save it — `activate`, `deactivate`, the
password change and the profile update, all of which either list
`updated_at` in `update_fields` or perform a full save — but the
`last_login` update performed on every successful login saves with
`update_fields=['last_login']` and leaves `updated_at` unchanged. -/
theorem updated_at_on_mutations :
    (∀ (hashFn : String → String) (freshId now : Nat) (e pw n : String),
      (UserManager.create_user hashFn freshId now e pw n).updated_at = now ∧
      (UserManager.create_user hashFn freshId now e pw n).created_at = now) ∧
    (∀ (u : User) (now : Nat), (u.activate now).updated_at = now) ∧
    (∀ (u : User) (now : Nat), (u.deactivate now).updated_at = now) ∧
    (∀ (hashFn : String → String) (u : User) (newPw : String) (now : Nat),
      (ChangePasswordView.applyChange hashFn u newPw now).updated_at = now) ∧
    (∀ (u : User) (e n : String) (now : Nat),
      (UserProfileView.applyUpdate u e n now).updated_at = now) ∧
    (∀ (u : User) (now : Nat),
      (u.update_last_login now).updated_at = u.updated_at ∧
      (u.update_last_login now).last_login = some now) :=
  ⟨fun _ _ _ _ _ _ => ⟨rfl, rfl⟩, fun _ _ => rfl, fun _ _ => rfl,
   fun _ _ _ _ => rfl, fun _ _ _ _ => rfl, fun _ _ => ⟨rfl, rfl⟩⟩

/-! ## Admin read endpoints -/

/-- Insertion step of the `order_by('-created_at')` ordering: rows with
larger `created_at` come first. The relative order of rows with equal
timestamps is not fixed by the ORM; one admissible stable order is
modelled. -/
def insertByCreatedAtDesc (u : User) : List User → List User
  | [] => [u]
  | v :: vs =>
    if u.created_at ≤ v.created_at then v :: insertByCreatedAtDesc u vs
    else u :: v :: vs

/-- Models `User.objects.all().order_by('-created_at')` (`views.py` line
259) by insertion sort on `created_at`, descending. -/
def orderByCreatedAtDesc : List User → List User
  | [] => []
  | u :: us => insertByCreatedAtDesc u (orderByCreatedAtDesc us)

/-- Embeds the `status` filter of `get_queryset` (`views.py` lines
262-264): applied only when the parameter is exactly `active` or
`inactive`. -/
def filterByStatus (queryset : List User) (statusParam : Option String) : List User :=
  match statusParam with
  | some s =>
    if s = "active" ∨ s = "inactive" then queryset.filter (fun u => u.status = s)
    else queryset
  | none => queryset

/-- Embeds the `role` filter of `get_queryset` (`views.py` lines 266-268):
applied only when the parameter is exactly `admin` or `user`. -/
def filterByRole (queryset : List User) (roleParam : Option String) : List User :=
  match roleParam with
  | some r =>
    if r = "admin" ∨ r = "user" then queryset.filter (fun u => u.role = r)
    else queryset
  | none => queryset

/-- Embeds the `search` branch of `get_queryset` (`views.py` lines
270-275). When the parameter is present and non-empty the code evaluates
`queryset.filter(models.Q(email__icontains=search) | models.Q(full_name__icontains=search))`,
but `views.py` imports only `User` from `.models` and never binds the name
`models`: evaluating `models.Q` raises `NameError` at request time, which
no handler in this repository recovers. The error value carries that
fault; the intended substring filter is never executed. -/
def applySearch (queryset : List User) (searchParam : Option String) :
    Except String (List User) :=
  match searchParam with
  | some s =>
    if s ≠ "" then .error "NameError: name 'models' is not defined"
    else .ok queryset
  | none => .ok queryset

/-- Embeds `AdminUserListView.get_queryset` (`views.py` lines 258-277): the
ordered store, then the `status`, `role` and `search` stages in source
order. -/
def AdminUserListView.get_queryset (store : List User)
    (statusParam roleParam searchParam : Option String) :
    Except String (List User) :=
  applySearch (filterByRole (filterByStatus (orderByCreatedAtDesc store) statusParam)
    roleParam) searchParam

/-- Embeds `AdminUserListView.list` (`views.py` lines 279-290): on success
the envelope carries the result count and the serialized users (pagination
settings live in project configuration outside `src`; the page here is the
whole result); a queryset fault propagates unhandled. -/
def AdminUserListView.list (store : List User)
    (statusParam roleParam searchParam : Option String) :
    Except String (Nat × List UserProjection) :=
  match AdminUserListView.get_queryset store statusParam roleParam searchParam with
  | .error e => .error e
  | .ok qs => .ok (qs.length, qs.map UserSerializer)

/-- Embeds `AdminUserDetailView.get` (`views.py` lines 301-311):
`get_object_or_404` then the serialized user; the error value is the 404
status. -/
def AdminUserDetailView.get (store : List User) (targetId : Nat) :
    Except Nat UserProjection :=
  match findById store targetId with
  | none => .error 404
  | some u => .ok (UserSerializer u)

/-- Embeds the body of `CurrentUserView.get` and `UserProfileView.get`
(`views.py` lines 163-171 and 183-191): the authenticated user,
serialized. -/
def CurrentUserView.get (u : User) : UserProjection :=
  UserSerializer u

/-- ## Claim C1 (code bug)

Any `GET /admin/users` request that carries a non-empty `search` query
parameter makes `get_queryset` evaluate `models.Q(...)` with the name
`models` unbound, so the request dies with an unhandled `NameError` fault
instead of the 200 envelope of substring matches which the spec (and the
rest of the function) intends. -/
theorem admin_user_list_search_raises_name_error
    (store : List User) (statusParam roleParam : Option String) (s : String)
    (hs : s ≠ "") :
    AdminUserListView.list store statusParam roleParam (some s) =
      .error "NameError: name 'models' is not defined" := by
  unfold AdminUserListView.list AdminUserListView.get_queryset applySearch
  simp [hs]

/-- Witness for C1's fault: the concrete request `?search=a` over an empty
store already raises. -/
theorem admin_user_list_search_raises_name_error_witness :
    AdminUserListView.list [] none none (some "a") =
      .error "NameError: name 'models' is not defined" :=
  admin_user_list_search_raises_name_error [] none none "a" (by decide)

/-! ## Password-hash independence of response bodies -/

/-- Overwrite of one account's password hash, leaving every other field and
every other row unchanged: the difference between the two stores of the
noninterference statement. -/
def overwriteHash (i : Nat) (h : String) (v : User) : User :=
  if v.id = i then { v with password := h } else v

/-- Store variant that differs only in account `i`'s password hash. -/
def setPasswordHash (store : List User) (i : Nat) (h : String) : List User :=
  store.map (overwriteHash i h)

theorem overwriteHash_created_at (i : Nat) (h : String) (v : User) :
    (overwriteHash i h v).created_at = v.created_at := by
  unfold overwriteHash; split <;> rfl

theorem overwriteHash_status (i : Nat) (h : String) (v : User) :
    (overwriteHash i h v).status = v.status := by
  unfold overwriteHash; split <;> rfl

theorem overwriteHash_role (i : Nat) (h : String) (v : User) :
    (overwriteHash i h v).role = v.role := by
  unfold overwriteHash; split <;> rfl

theorem overwriteHash_id (i : Nat) (h : String) (v : User) :
    (overwriteHash i h v).id = v.id := by
  unfold overwriteHash; split <;> rfl

theorem overwriteHash_serializer (i : Nat) (h : String) (v : User) :
    UserSerializer (overwriteHash i h v) = UserSerializer v := by
  unfold overwriteHash; split <;> rfl

theorem insert_map_overwrite (i : Nat) (h : String) (u : User) (l : List User) :
    insertByCreatedAtDesc (overwriteHash i h u) (l.map (overwriteHash i h)) =
      (insertByCreatedAtDesc u l).map (overwriteHash i h) := by
  induction l with
  | nil => rfl
  | cons v vs ih =>
    by_cases hc : u.created_at ≤ v.created_at <;>
      simp [insertByCreatedAtDesc, overwriteHash_created_at, hc, ih]

theorem sort_map_overwrite (i : Nat) (h : String) (l : List User) :
    orderByCreatedAtDesc (l.map (overwriteHash i h)) =
      (orderByCreatedAtDesc l).map (overwriteHash i h) := by
  induction l with
  | nil => rfl
  | cons v vs ih => simp [orderByCreatedAtDesc, ih, insert_map_overwrite]

theorem filterByStatus_map_overwrite (i : Nat) (h : String) (l : List User)
    (sp : Option String) :
    filterByStatus (l.map (overwriteHash i h)) sp =
      (filterByStatus l sp).map (overwriteHash i h) := by
  cases sp with
  | none => rfl
  | some s =>
    by_cases hs : s = "active" ∨ s = "inactive" <;>
      simp [filterByStatus, hs, List.filter_map, Function.comp_def,
        overwriteHash_status]

theorem filterByRole_map_overwrite (i : Nat) (h : String) (l : List User)
    (rp : Option String) :
    filterByRole (l.map (overwriteHash i h)) rp =
      (filterByRole l rp).map (overwriteHash i h) := by
  cases rp with
  | none => rfl
  | some r =>
    by_cases hr : r = "admin" ∨ r = "user" <;>
      simp [filterByRole, hr, List.filter_map, Function.comp_def,
        overwriteHash_role]

theorem applySearch_map_overwrite (i : Nat) (h : String) (l : List User)
    (se : Option String) :
    applySearch (l.map (overwriteHash i h)) se =
      (applySearch l se).map (List.map (overwriteHash i h)) := by
  cases se with
  | none => rfl
  | some s => by_cases hs : s = "" <;> simp [applySearch, hs, Except.map]

theorem get_queryset_overwrite (store : List User) (i : Nat) (h : String)
    (sp rp se : Option String) :
    AdminUserListView.get_queryset (setPasswordHash store i h) sp rp se =
      (AdminUserListView.get_queryset store sp rp se).map
        (List.map (overwriteHash i h)) := by
  unfold AdminUserListView.get_queryset setPasswordHash
  rw [sort_map_overwrite, filterByStatus_map_overwrite, filterByRole_map_overwrite,
    applySearch_map_overwrite]

theorem findById_setPasswordHash (store : List User) (i : Nat) (h : String)
    (t : Nat) :
    findById (setPasswordHash store i h) t =
      (findById store t).map (overwriteHash i h) := by
  unfold findById setPasswordHash
  induction store with
  | nil => rfl
  | cons v vs ih =>
    simp only [List.map_cons, List.find?_cons, overwriteHash_id]
    by_cases hv : v.id = t
    · simp [hv]
    · simp [hv, ih]

/-- ## Claim C9

No response body depends on a password hash: the projection built by
`UserSerializer` consists exactly of id, email, full_name, role, status,
created_at, updated_at, last_login, and for two stores differing only in
one account's password hash every read endpoint (current user, profile,
admin user list with any query parameters, admin user detail) produces an
identical response body. -/
theorem response_bodies_independent_of_password_hash :
    (∀ (u : User) (h : String),
      UserSerializer { u with password := h } = UserSerializer u) ∧
    (∀ (u : User) (h : String),
      CurrentUserView.get { u with password := h } = CurrentUserView.get u) ∧
    (∀ (store : List User) (i : Nat) (h : String) (sp rp se : Option String),
      AdminUserListView.list (setPasswordHash store i h) sp rp se =
        AdminUserListView.list store sp rp se) ∧
    (∀ (store : List User) (i : Nat) (h : String) (t : Nat),
      AdminUserDetailView.get (setPasswordHash store i h) t =
        AdminUserDetailView.get store t) := by
  refine ⟨fun u h => rfl, fun u h => rfl, ?_, ?_⟩
  · intro store i h sp rp se
    unfold AdminUserListView.list
    rw [get_queryset_overwrite]
    cases AdminUserListView.get_queryset store sp rp se with
    | error e => rfl
    | ok qs =>
      simp [Except.map, List.map_map, Function.comp, overwriteHash_serializer]
  · intro store i h t
    unfold AdminUserDetailView.get
    rw [findById_setPasswordHash]
    cases findById store t with
    | none => rfl
    | some u => simp [overwriteHash_serializer]

end UserManagement
